import Mathlib

/-!
Shallow embedding of the command dispatch and lifecycle core of the
Goldy-Bot-V5 framework (`GoldyBot/goldy/commands/__init__.py` and
`GoldyBot/goldy/goldy_config.py`), together with theorems settling the
specification claims about it.

Python objects are modelled by explicit state passing: the module-level
`commands_cache` list, the gateway event-bus listener table and the log of
issued remote HTTP requests live in a `SysState` record that every
state-changing operation threads through.  Fallible Python code (subscript
`KeyError`, `list.remove` `ValueError`, iteration over `None` `TypeError`,
indexing an empty list `IndexError`) is modelled with `Except PyErr`.
-/

/-- The Python exception classes that the modelled code can raise. -/
inductive PyErr where
  | keyError
  | typeError
  | valueError
  | indexError
deriving DecidableEq, Repr

/-- The configuration error raised by `GoldyConfig`
(`GoldyBot/errors.py` is not part of the sources; only the raising site in
`goldy_config.py` matters here, so the error is a bare tag). -/
inductive GoldyBotError where
  | allowedGuildsNotSpecified
deriving DecidableEq, Repr

/-- Which of the two callback closures created in `Command.__init__` a
listener registration refers to: `self.__slash_callback` or
`self.__normal_callback`. -/
inductive CbKind where
  | slash
  | normal
deriving DecidableEq, Repr

/-- The discriminator `PlatterType` (from `GoldyBot/goldy/objects`, bound
into each callback closure at construction time). -/
inductive PlatterType where
  | prefix_cmd
  | slash_cmd
deriving DecidableEq, Repr

/-- A remote Discord HTTP request issued by the command lifecycle code:
`create_guild_application_command` (from `create_slash`, carrying the
guild id, command name and description) or
`delete_guild_application_command` (from `remove_slash`, carrying the
guild id and the remote command id). -/
inductive HttpRequest where
  | createGuildAppCommand (application_id : String) (guild_id : String)
      (name : String) (description : String)
  | deleteGuildAppCommand (application_id : String) (guild_id : String)
      (command_id : Nat)
deriving DecidableEq, Repr

/-- The mutable world the command lifecycle code touches:
* `commands_cache` — the module-level `commands_cache : List[Tuple[str, object]]`;
  the `object` (the Python identity of the `Command`) is a numeric id;
* `listeners` — the gateway event bus subscription table
  (`shard_manager.event_dispatcher`): entries are (command id, which
  callback closure, event name);
* `requests` — the log, in order, of remote HTTP requests issued;
* `extensions_cache` — the extension registry: (extension code name,
  ids of the commands added to that extension). -/
structure SysState where
  commands_cache : List (String × Nat)
  listeners : List (Nat × CbKind × String)
  requests : List HttpRequest
  extensions_cache : List (String × List Nat)
deriving DecidableEq, Repr

/-- The read-only collaborators a `Command` reaches through `self.goldy`:
* `allowed_guilds` — `goldy.config.allowed_guilds`, ordered
  (guild id, guild code name) pairs;
* `pre` — models `goldy.guilds.get_guild(gid).prefix` (the `Guilds`
  class is not among the sources; modelled from the spec: "resolve the
  textual prefix configured for that guild");
* `created_command_id` — the remote id Discord returns from
  `create_guild_application_command` for a (guild id, command name) pair
  (response of an external collaborator, kept abstract);
* `application_id` — `goldy.application_data["id"]`, passed on every
  remote create/delete request. -/
structure GoldyEnv where
  allowed_guilds : List (String × String)
  pre : String → String
  created_command_id : String → String → Nat
  application_id : String

/-- The `Command` object.  Fields mirror the attributes set in
`Command.__init__`: `params` is `self.params` (the callback's
`co_varnames` — argument names followed by local-variable names — with a
leading `"self"` popped when present), `params_amount` is the private
`__params_amount` (`co_argcount`, decremented for extension commands),
`in_extension` is the private `__in_extension`, `loaded` the private
`__loaded`, and `list_of_application_command_data` holds the per-guild
(guild id, remote command id) handles recorded by `create_slash`
(`None` until then).  `extension_name` stands for the class name parsed
out of `str(self.func)` by the `extension_name` property.  `cmdId` is the
Python object identity used by registry and listener bookkeeping. -/
structure Command where
  cmdId : Nat
  name : String
  description : String
  required_roles : Option (List String)
  allow_prefix_cmd : Bool
  allow_slash_cmd : Bool
  parent_cmd : Option Nat
  params : List String
  params_amount : Int
  extension_name : String
  in_extension : Bool
  list_of_application_command_data : Option (List (String × Nat))
  loaded : Bool
deriving DecidableEq, Repr

/-- Python `list.remove(x)`: removes the first element equal to `x`,
raising `ValueError` when no element matches (used on `commands_cache`
in `Command.delete`). -/
def pyListRemove {α : Type} [DecidableEq α] (xs : List α) (x : α) :
    Except PyErr (List α) :=
  match xs with
  | [] => Except.error PyErr.valueError
  | y :: ys =>
    if y = x then Except.ok ys
    else
      match pyListRemove ys x with
      | Except.error e => Except.error e
      | Except.ok r => Except.ok (y :: r)

/-- Removal of the first matching entry from the event bus's listener
table.  Modelled from the spec: `remove_listener` of the external gateway
client deregisters the given callback for the given event class (the
nextcore dispatcher is an external collaborator; deregistration of an
absent listener is modelled as a no-op). -/
def removeFirst {α : Type} [DecidableEq α] (xs : List α) (x : α) : List α :=
  match xs with
  | [] => []
  | y :: ys => if y = x then ys else y :: removeFirst ys x

/-- Modelled from the spec: `utils.cache_lookup` (the `utils` module is
not among the sources) — linear lookup by name over a cache of
(name, value) pairs, first match wins. -/
def cache_lookup {α : Type} (name : String) (cache : List (String × α)) :
    Option (String × α) :=
  cache.find? (fun x => x.1 == name)

/-- All listener-table entries belonging to a given command. -/
def listenersFor (s : SysState) (cid : Nat) : List (Nat × CbKind × String) :=
  s.listeners.filter (fun l => l.1 == cid)

/-- `Command.__init__`.  Inputs mirror what the constructor reads off the
callback: `co_varnames`/`co_argcount` from `func.__code__`, `func_name`
from `func.__name__`, `ext_class_name` the class name embedded in
`str(func)`.  It derives the name and description defaults, detects the
extension case by checking whether the first entry of `co_varnames` is
`"self"` (popping it and decrementing the parameter count), initialises
the slash-handle list to `None` and the loaded flag to `False`, and
appends the (name, identity) pair to `commands_cache` with no uniqueness
check.  Indexing `self.params[0]` on an empty list raises `IndexError`. -/
def Command.init (cmdId : Nat) (co_varnames : List String) (co_argcount : Nat)
    (func_name : String) (ext_class_name : String)
    (nameArg : Option String) (descriptionArg : Option String)
    (required_roles : Option (List String))
    (allow_prefix_cmd : Bool) (allow_slash_cmd : Bool)
    (parent_cmd : Option Nat) (s : SysState) :
    Except PyErr (Command × SysState) :=
  let name := nameArg.getD func_name
  let description :=
    descriptionArg.getD "This command has no description. Sorry about that."
  match co_varnames with
  | [] => Except.error PyErr.indexError
  | p0 :: rest =>
    let inExt := p0 = "self"
    let c : Command :=
      { cmdId := cmdId
        name := name
        description := description
        required_roles := required_roles
        allow_prefix_cmd := allow_prefix_cmd
        allow_slash_cmd := allow_slash_cmd
        parent_cmd := parent_cmd
        params := if inExt then rest else p0 :: rest
        params_amount :=
          if inExt then (co_argcount : Int) - 1 else (co_argcount : Int)
        extension_name := ext_class_name
        in_extension := inExt
        list_of_application_command_data := none
        loaded := false }
    Except.ok (c, { s with commands_cache := s.commands_cache ++ [(name, cmdId)] })

/-- The message/interaction payload fields the dispatch path subscripts.
An `Option` field being `none` models the key being absent from the
payload dictionary (subscripting then raises `KeyError`); `author` and
`member` stand in for the author/member sub-dictionaries, which the
handler only reads for logging. -/
structure EventData where
  guild_id : Option String
  author : Option String
  member : Option String
  content : String
deriving DecidableEq, Repr

/-- `Command.__invoke` — the dispatch decision run by the two registered
callbacks (the `PlatterType` is bound by the closure).  Subscripting
`data["guild_id"]` raises `KeyError` when the key is absent; otherwise
the guard checks the guild id against the allowed-guild list and silently
drops non-allowed events.  For a prefix invocation, the message content
must equal exactly the guild's prefix followed by the command name; for a
slash invocation the callback is always run.  The returned `Bool` records
whether the command's callback (`self.func`) was invoked.  (The retrieval
of the extension instance passed as the callback's first argument — which
for a loaded extension command succeeded already during `load` — is not
re-modelled here.) -/
def Command.invoke (c : Command) (env : GoldyEnv) (data : EventData)
    (ty : PlatterType) : Except PyErr Bool :=
  match data.guild_id with
  | none => Except.error PyErr.keyError
  | some gid =>
    if gid ∈ env.allowed_guilds.map Prod.fst then
      match ty with
      | PlatterType.prefix_cmd =>
        if data.content = env.pre gid ++ c.name then
          match data.author with
          | none => Except.error PyErr.keyError
          | some _ => Except.ok true
        else Except.ok false
      | PlatterType.slash_cmd =>
        match data.member with
        | none => Except.error PyErr.keyError
        | some _ => Except.ok true
    else Except.ok false

/-- `Command.create_slash`: for every allowed guild, issue a remote
create-application-command request and record the (guild id, returned
remote id) handle; then subscribe the slash callback to
`INTERACTION_CREATE` and store the handle list. -/
def Command.create_slash (c : Command) (env : GoldyEnv) (s : SysState) :
    Command × SysState :=
  let handles := env.allowed_guilds.map
    (fun g => (g.1, env.created_command_id g.1 c.name))
  let reqs := env.allowed_guilds.map
    (fun g => HttpRequest.createGuildAppCommand env.application_id g.1 c.name c.description)
  ({ c with list_of_application_command_data := some handles },
   { s with
      requests := s.requests ++ reqs
      listeners := s.listeners ++ [(c.cmdId, CbKind.slash, "INTERACTION_CREATE")] })

/-- `Command.remove_slash`: iterate over the recorded slash handles
(iterating over `None` raises `TypeError`), issuing a remote deletion for
each, then unsubscribe the slash callback.  The handle list itself is not
reset. -/
def Command.remove_slash (c : Command) (env : GoldyEnv) (s : SysState) :
    Except PyErr (Command × SysState) :=
  match c.list_of_application_command_data with
  | none => Except.error PyErr.typeError
  | some handles =>
    Except.ok (c,
      { s with
          requests := s.requests ++ handles.map
            (fun h => HttpRequest.deleteGuildAppCommand env.application_id h.1 h.2)
          listeners := removeFirst s.listeners
            (c.cmdId, CbKind.slash, "INTERACTION_CREATE") })

/-- `Command.create_normal`: subscribe the normal (prefix) callback to
`MESSAGE_CREATE`. -/
def Command.create_normal (c : Command) (s : SysState) : Command × SysState :=
  (c, { s with
          listeners := s.listeners ++ [(c.cmdId, CbKind.normal, "MESSAGE_CREATE")] })

/-- `Command.remove_normal`: unsubscribe the normal (prefix) callback
from `MESSAGE_CREATE`. -/
def Command.remove_normal (c : Command) (s : SysState) : Command × SysState :=
  (c, { s with
          listeners := removeFirst s.listeners
            (c.cmdId, CbKind.normal, "MESSAGE_CREATE") })

/-- The `Command.extension` property: for an extension command, a
`cache_lookup` of the extension name in the extension registry, then a
subscript `[1]` of the result — which raises `TypeError` when the lookup
returned `None`.  For a non-extension command it is `None`. -/
def Command.extension (c : Command) (s : SysState) :
    Except PyErr (Option (String × List Nat)) :=
  if c.in_extension then
    match cache_lookup c.extension_name s.extensions_cache with
    | none => Except.error PyErr.typeError
    | some e => Except.ok (some e)
  else Except.ok none

/-- Modelled from the spec: `Extension.add_command` (the `extensions`
module is not among the sources) — the extension, identified by its code
name, accumulates the command into its tracked list. -/
def Extension.add_command (ext_name : String) (cid : Nat)
    (cache : List (String × List Nat)) : List (String × List Nat) :=
  cache.map (fun e => if e.1 = ext_name then (e.1, e.2 ++ [cid]) else e)

/-- `Command.load`: create the slash registration when allowed, create
the prefix registration when allowed, notify the owning extension when
there is one (the `self.extension` property can raise), then set the
loaded flag. -/
def Command.load (c : Command) (env : GoldyEnv) (s : SysState) :
    Except PyErr (Command × SysState) :=
  let p1 := if c.allow_slash_cmd then c.create_slash env s else (c, s)
  let p2 := if p1.1.allow_prefix_cmd then p1.1.create_normal p1.2 else p1
  match p2.1.extension p2.2 with
  | Except.error e => Except.error e
  | Except.ok none => Except.ok ({ p2.1 with loaded := true }, p2.2)
  | Except.ok (some e) =>
    Except.ok ({ p2.1 with loaded := true },
      { p2.2 with
          extensions_cache := Extension.add_command e.1 p2.1.cmdId p2.2.extensions_cache })

/-- `Command.unload`: remove the slash registration when allowed
(`remove_slash` can raise), remove the prefix registration when allowed,
then clear the loaded flag. -/
def Command.unload (c : Command) (env : GoldyEnv) (s : SysState) :
    Except PyErr (Command × SysState) :=
  match (if c.allow_slash_cmd then c.remove_slash env s else Except.ok (c, s)) with
  | Except.error e => Except.error e
  | Except.ok p1 =>
    let p2 := if p1.1.allow_prefix_cmd then p1.1.remove_normal p1.2 else p1
    Except.ok ({ p2.1 with loaded := false }, p2.2)

/-- `Command.delete`: `unload`, then `commands_cache.remove((name, self))`
(Python `list.remove`, which raises `ValueError` when the pair is
absent). -/
def Command.delete (c : Command) (env : GoldyEnv) (s : SysState) :
    Except PyErr (Command × SysState) :=
  match c.unload env s with
  | Except.error e => Except.error e
  | Except.ok (c1, s1) =>
    match pyListRemove s1.commands_cache (c1.name, c1.cmdId) with
    | Except.error e => Except.error e
    | Except.ok cc => Except.ok (c1, { s1 with commands_cache := cc })

/-- `Command.any_args_missing`: compares the number of supplied arguments
with the length of `self.params[1:]`. -/
def Command.any_args_missing (c : Command) (command_executers_args : List String) :
    Bool :=
  if command_executers_args.length = (c.params.drop 1).length then true
  else false

/-- `GoldyConfig.allowed_guilds`.  The input is what
`self.get("goldy", "allowed_guilds")` returns — modelled from the spec
(the `Config` base class is not among the sources): `None` when the key
is absent, otherwise the config dictionary as an ordered list of
(guild id, guild code name) pairs with distinct keys.  When the key is
absent a fatal `GoldyBotError` is raised; otherwise the template entry
`"{guild_id_here}"` is deleted if present and the remaining pairs are
returned in order. -/
def GoldyConfig.allowed_guilds (data : Option (List (String × String))) :
    Except GoldyBotError (List (String × String)) :=
  match data with
  | none => Except.error GoldyBotError.allowedGuildsNotSpecified
  | some d =>
    Except.ok (d.filter (fun kv => kv.1 ≠ "\x7bguild_id_here\x7d"))

/-! ## Concrete fixtures used by witnesses and counterexamples -/

/-- A fresh world: empty registry, empty listener table, no requests. -/
def emptyState : SysState :=
  { commands_cache := [], listeners := [], requests := [], extensions_cache := [] }

/-- A sample environment with one allowed guild whose prefix is `!`. -/
def sampleEnv : GoldyEnv :=
  { allowed_guilds := [("g1", "dev server")]
    pre := fun _ => "!"
    created_command_id := fun _ _ => 900
    application_id := "app1" }

/-- A sample prefix-only command named `ping`. -/
def pingCmd : Command :=
  { cmdId := 1
    name := "ping"
    description := "a sample command"
    required_roles := none
    allow_prefix_cmd := true
    allow_slash_cmd := false
    parent_cmd := none
    params := ["platter"]
    params_amount := 1
    extension_name := ""
    in_extension := false
    list_of_application_command_data := none
    loaded := false }

/-- A sample slash-enabled command named `greet` that has never been
loaded (its slash-handle list is still `None`). -/
def greetCmd : Command :=
  { cmdId := 2
    name := "greet"
    description := "another sample command"
    required_roles := none
    allow_prefix_cmd := true
    allow_slash_cmd := true
    parent_cmd := none
    params := ["platter"]
    params_amount := 1
    extension_name := ""
    in_extension := false
    list_of_application_command_data := none
    loaded := false }

/-- A message payload from the allowed guild whose text is `!ping`. -/
def sampleMsg : EventData :=
  { guild_id := some "g1", author := some "gold", member := none, content := "!ping" }

/-- A direct-message payload: no `guild_id` key at all. -/
def dmMsg : EventData :=
  { guild_id := none, author := some "gold", member := none, content := "!ping" }

/-- A payload from a guild that is not in the allowed list. -/
def strangerMsg : EventData :=
  { guild_id := some "g9", author := some "gold", member := none, content := "!ping" }

/-! ## Claim theorems -/

/-- C1: for a prefix-dispatched message-create event carrying a guild id
(and an author, as every message-create payload does), the command's
callback is invoked iff the guild id is in the allowed list and the
message content equals exactly the guild prefix followed by the command
name; in every other case the handler returns without invoking and
without error. -/
theorem prefix_dispatch_iff (env : GoldyEnv) (c : Command) (data : EventData)
    (gid a : String) (hg : data.guild_id = some gid) (ha : data.author = some a) :
    (c.invoke env data PlatterType.prefix_cmd = Except.ok true ↔
      gid ∈ env.allowed_guilds.map Prod.fst ∧
      data.content = env.pre gid ++ c.name) ∧
    (¬ (gid ∈ env.allowed_guilds.map Prod.fst ∧
        data.content = env.pre gid ++ c.name) →
      c.invoke env data PlatterType.prefix_cmd = Except.ok false) := by
  by_cases hm : gid ∈ env.allowed_guilds.map Prod.fst
  · by_cases hc : data.content = env.pre gid ++ c.name
    · simp [Command.invoke, hg, hm, hc, ha]
    · simp [Command.invoke, hg, hm, hc]
  · simp [Command.invoke, hg, hm]

/-- Witness for C1: with guild `g1` allowed, prefix `!` and command name
`ping`, the payload `!ping` from `g1` satisfies the matching condition. -/
theorem prefix_dispatch_iff_witness :
    sampleMsg.guild_id = some "g1" ∧ sampleMsg.author = some "gold" ∧
    ((pingCmd.invoke sampleEnv sampleMsg PlatterType.prefix_cmd = Except.ok true ↔
      "g1" ∈ sampleEnv.allowed_guilds.map Prod.fst ∧
      sampleMsg.content = sampleEnv.pre "g1" ++ pingCmd.name) ∧
     (¬ ("g1" ∈ sampleEnv.allowed_guilds.map Prod.fst ∧
         sampleMsg.content = sampleEnv.pre "g1" ++ pingCmd.name) →
      pingCmd.invoke sampleEnv sampleMsg PlatterType.prefix_cmd = Except.ok false)) :=
  ⟨rfl, rfl, prefix_dispatch_iff sampleEnv pingCmd sampleMsg "g1" "gold" rfl rfl⟩

/-- C2 (code bug): a command declared as `(ctx, a)` with exactly one
supplied invoker argument — the arity that exactly fills the declared
non-context parameters — makes `any_args_missing` return `true`, while
the specified behaviour (and the method's own name) demands `false`. -/
theorem any_args_missing_inverted_at_failing_input :
    (Command.init 1 ["ctx", "a"] 2 "ping" "" none none none true true none
        emptyState).map
      (fun p => p.1.any_args_missing ["hello"]) = Except.ok true := by rfl

/-- C9: a slash-enabled command whose slash-handle list is still `None`
(no `load()`/`create_slash()` ever completed) makes `unload()` raise a
`TypeError` when `remove_slash` iterates over `None`, and `delete()`
propagates the same error before reaching the registry removal. -/
theorem unload_before_load_raises (env : GoldyEnv) (c : Command) (s : SysState)
    (hs : c.allow_slash_cmd = true)
    (hn : c.list_of_application_command_data = none) :
    c.unload env s = Except.error PyErr.typeError ∧
    c.delete env s = Except.error PyErr.typeError := by
  have hu : c.unload env s = Except.error PyErr.typeError := by
    simp [Command.unload, Command.remove_slash, hs, hn]
  exact ⟨hu, by simp [Command.delete, hu]⟩

/-- Witness for C9: the never-loaded slash command `greet`. -/
theorem unload_before_load_raises_witness :
    greetCmd.allow_slash_cmd = true ∧
    greetCmd.list_of_application_command_data = none ∧
    (greetCmd.unload sampleEnv emptyState = Except.error PyErr.typeError ∧
     greetCmd.delete sampleEnv emptyState = Except.error PyErr.typeError) :=
  ⟨rfl, rfl, unload_before_load_raises sampleEnv greetCmd emptyState rfl rfl⟩

/-- C10: a payload with no `guild_id` key makes the invocation handler
raise `KeyError`; the allowed-guild guard silently drops an event (no
invocation, no error) only when the payload does carry a guild id. -/
theorem invoke_guild_key (env : GoldyEnv) (c : Command) (data : EventData)
    (ty : PlatterType) :
    (data.guild_id = none → c.invoke env data ty = Except.error PyErr.keyError) ∧
    (∀ gid, data.guild_id = some gid →
      gid ∉ env.allowed_guilds.map Prod.fst →
      c.invoke env data ty = Except.ok false) := by
  constructor
  · intro h
    simp [Command.invoke, h]
  · intro gid h hm
    simp [Command.invoke, h, hm]

/-- Witness for C10: a direct-message payload raises `KeyError`; a
payload from a non-allowed guild is silently dropped. -/
theorem invoke_guild_key_witness :
    pingCmd.invoke sampleEnv dmMsg PlatterType.prefix_cmd =
      Except.error PyErr.keyError ∧
    pingCmd.invoke sampleEnv strangerMsg PlatterType.prefix_cmd =
      Except.ok false :=
  ⟨(invoke_guild_key sampleEnv pingCmd dmMsg PlatterType.prefix_cmd).1 rfl,
   (invoke_guild_key sampleEnv pingCmd strangerMsg PlatterType.prefix_cmd).2 "g9"
     rfl (by decide)⟩

/-! ## Helper lemmas about the registry and listener-table operations -/

/-- Removing an element that is absent from the front segment commutes
with the append. -/
theorem removeFirst_append_of_not_mem {α : Type} [DecidableEq α] (x : α)
    (xs ys : List α) (h : x ∉ xs) :
    removeFirst (xs ++ ys) x = xs ++ removeFirst ys x := by
  induction xs with
  | nil => simp
  | cons a as ih =>
    have ha : ¬ a = x := by
      intro hax
      exact h (hax ▸ List.mem_cons_self a as)
    have h' : x ∉ as := fun hx => h (List.mem_cons_of_mem _ hx)
    simp [removeFirst, ha, ih h']

/-- Python `list.remove` raises `ValueError` exactly when the element is
absent. -/
theorem pyListRemove_of_not_mem {α : Type} [DecidableEq α] (xs : List α)
    (x : α) (h : x ∉ xs) :
    pyListRemove xs x = Except.error PyErr.valueError := by
  induction xs with
  | nil => rfl
  | cons a as ih =>
    have ha : ¬ a = x := by
      intro hax
      exact h (hax ▸ List.mem_cons_self a as)
    have h' : x ∉ as := fun hx => h (List.mem_cons_of_mem _ hx)
    simp [pyListRemove, ha, ih h']

/-- When the only registry entry carrying key `x.1` is `x` itself,
removing `x` leaves no entry with that key. -/
theorem pyListRemove_filter_key {xs ys : List (String × Nat)} (x : String × Nat)
    (hf : xs.filter (fun p => p.1 == x.1) = [x])
    (hr : pyListRemove xs x = Except.ok ys) :
    ys.filter (fun p => p.1 == x.1) = [] := by
  induction xs generalizing ys with
  | nil => simp [pyListRemove] at hr
  | cons a as ih =>
    by_cases hax : a = x
    · subst hax
      simp [pyListRemove] at hr
      subst hr
      rw [List.filter_cons, if_pos (by simp)] at hf
      exact List.tail_eq_of_cons_eq hf
    · have hpa : ¬ (a.1 == x.1) = true := by
        intro hcon
        rw [List.filter_cons, if_pos hcon] at hf
        exact hax (List.head_eq_of_cons_eq hf)
      cases hrec : pyListRemove as x with
      | error e => simp [pyListRemove, hax, hrec] at hr
      | ok r =>
        simp [pyListRemove, hax, hrec] at hr
        subst hr
        rw [List.filter_cons, if_neg hpa] at hf
        rw [List.filter_cons, if_neg hpa]
        exact ih hf hrec

/-- A `cache_lookup` over a list with no matching key finds nothing. -/
theorem cache_lookup_eq_none_of_filter_nil (n : String)
    (xs : List (String × Nat)) (h : xs.filter (fun p => p.1 == n) = []) :
    cache_lookup n xs = none := by
  rw [cache_lookup, List.find?_eq_none]
  intro p hp hb
  have : p ∈ xs.filter (fun q => q.1 == n) := List.mem_filter.mpr ⟨hp, hb⟩
  simp [h] at this

/-- An empty per-command listener slice means no table entry carries the
command's id. -/
theorem not_mem_listeners_of_filter_nil (s : SysState) (cid : Nat)
    (h : listenersFor s cid = []) :
    ∀ l ∈ s.listeners, l.1 ≠ cid := by
  intro l hl
  have := List.filter_eq_nil_iff.mp h l hl
  simpa using this

/-- What a successful `load()` does to the command and the world:
remote creations logged and handles recorded when slash is allowed, the
right listeners appended, the loaded flag set, and the registry left
alone. -/
theorem load_ok_inv (env : GoldyEnv) (c c1 : Command) (s s1 : SysState)
    (h : c.load env s = Except.ok (c1, s1)) :
    c1.cmdId = c.cmdId ∧ c1.name = c.name ∧
    c1.allow_prefix_cmd = c.allow_prefix_cmd ∧
    c1.allow_slash_cmd = c.allow_slash_cmd ∧
    c1.loaded = true ∧
    c1.list_of_application_command_data =
      (if c.allow_slash_cmd then
        some (env.allowed_guilds.map (fun g => (g.1, env.created_command_id g.1 c.name)))
      else c.list_of_application_command_data) ∧
    s1.listeners = s.listeners
      ++ (if c.allow_slash_cmd then [(c.cmdId, CbKind.slash, "INTERACTION_CREATE")] else [])
      ++ (if c.allow_prefix_cmd then [(c.cmdId, CbKind.normal, "MESSAGE_CREATE")] else []) ∧
    s1.requests = s.requests
      ++ (if c.allow_slash_cmd then
            env.allowed_guilds.map (fun g =>
              HttpRequest.createGuildAppCommand env.application_id g.1 c.name c.description)
          else []) ∧
    s1.commands_cache = s.commands_cache := by
  unfold Command.load at h
  by_cases hs : c.allow_slash_cmd <;> by_cases hp : c.allow_prefix_cmd <;>
    simp only [hs, hp, Command.create_slash, Command.create_normal, if_true, if_false,
      Bool.false_eq_true, ite_true, ite_false] at h <;>
    split at h <;>
    simp_all [Command.extension] <;>
    (try obtain ⟨rfl, rfl⟩ := h) <;>
    simp_all

/-- What a successful `unload()` does: the recorded handles (when slash
is allowed) each get a remote deletion logged, the two listeners are
deregistered, the loaded flag cleared, and the registry left alone. -/
theorem unload_ok_inv (env : GoldyEnv) (c c1 : Command) (s s1 : SysState)
    (h : c.unload env s = Except.ok (c1, s1)) :
    c1.cmdId = c.cmdId ∧ c1.name = c.name ∧ c1.loaded = false ∧
    c1.list_of_application_command_data = c.list_of_application_command_data ∧
    s1.commands_cache = s.commands_cache ∧
    s1.requests = s.requests
      ++ (if c.allow_slash_cmd then
            (c.list_of_application_command_data.getD []).map (fun gh =>
              HttpRequest.deleteGuildAppCommand env.application_id gh.1 gh.2)
          else []) ∧
    s1.listeners =
      (if c.allow_prefix_cmd then
        removeFirst
          (if c.allow_slash_cmd then
            removeFirst s.listeners (c.cmdId, CbKind.slash, "INTERACTION_CREATE")
          else s.listeners)
          (c.cmdId, CbKind.normal, "MESSAGE_CREATE")
      else
        (if c.allow_slash_cmd then
          removeFirst s.listeners (c.cmdId, CbKind.slash, "INTERACTION_CREATE")
        else s.listeners)) := by
  unfold Command.unload at h
  by_cases hs : c.allow_slash_cmd
  · cases hl : c.list_of_application_command_data with
    | none => simp [hs, hl, Command.remove_slash] at h
    | some handles =>
      by_cases hp : c.allow_prefix_cmd
      · simp [hs, hl, hp, Command.remove_slash, Command.remove_normal] at h
        obtain ⟨rfl, rfl⟩ := h
        simp [hs, hl, hp]
      · simp [hs, hl, hp, Command.remove_slash, Command.remove_normal] at h
        obtain ⟨rfl, rfl⟩ := h
        simp [hs, hl, hp]
  · by_cases hp : c.allow_prefix_cmd
    · simp [hs, hp, Command.remove_normal] at h
      obtain ⟨rfl, rfl⟩ := h
      simp [hs, hp]
    · simp [hs, hp] at h
      obtain ⟨rfl, rfl⟩ := h
      simp [hs, hp]

/-- C3: after a successful `load()` followed by a completed `unload()`,
no event-bus subscription for the command remains, a remote deletion has
been issued for every slash handle recorded during the load, and the
loaded flag is false.  (`hbase` says the command had no stray
subscriptions before the load; `hfresh` that no stale handle list
predates it, as right after construction.) -/
theorem load_unload_clears (env : GoldyEnv) (c c1 c2 : Command) (s s1 s2 : SysState)
    (hbase : listenersFor s c.cmdId = [])
    (hfresh : c.list_of_application_command_data = none)
    (hL : c.load env s = Except.ok (c1, s1))
    (hU : c1.unload env s1 = Except.ok (c2, s2)) :
    listenersFor s2 c2.cmdId = [] ∧ c2.loaded = false ∧
    ∀ gh ∈ c1.list_of_application_command_data.getD [],
      HttpRequest.deleteGuildAppCommand env.application_id gh.1 gh.2 ∈ s2.requests := by
  obtain ⟨l1, l2, l3, l4, l5, l6, l7, l8, l9⟩ := load_ok_inv env c c1 s s1 hL
  obtain ⟨u1, u2, u3, u4, u5, u6, u7⟩ := unload_ok_inv env c1 c2 s1 s2 hU
  have hmem := not_mem_listeners_of_filter_nil s c.cmdId hbase
  have hsl : (c.cmdId, CbKind.slash, "INTERACTION_CREATE") ∉ s.listeners := by
    intro hx
    exact hmem _ hx rfl
  have hnl : (c.cmdId, CbKind.normal, "MESSAGE_CREATE") ∉ s.listeners := by
    intro hx
    exact hmem _ hx rfl
  have hb : List.filter (fun l => l.1 == c.cmdId) s.listeners = [] := hbase
  refine ⟨?_, u3, ?_⟩
  · rw [l3, l4] at u7
    rw [l1] at u7
    have efin : s2.listeners = s.listeners := by
      by_cases hs : c.allow_slash_cmd
      · by_cases hp : c.allow_prefix_cmd
        · simp only [hs, hp, ite_true] at u7 l7
          rw [u7, l7, List.append_assoc, removeFirst_append_of_not_mem _ _ _ hsl,
            List.singleton_append]
          rw [show removeFirst
              ((c.cmdId, CbKind.slash, "INTERACTION_CREATE") ::
                [(c.cmdId, CbKind.normal, "MESSAGE_CREATE")])
              (c.cmdId, CbKind.slash, "INTERACTION_CREATE")
              = [(c.cmdId, CbKind.normal, "MESSAGE_CREATE")] from by simp [removeFirst]]
          rw [removeFirst_append_of_not_mem _ _ _ hnl]
          rw [show removeFirst [(c.cmdId, CbKind.normal, "MESSAGE_CREATE")]
              (c.cmdId, CbKind.normal, "MESSAGE_CREATE") = [] from by simp [removeFirst]]
          exact List.append_nil _
        · simp [hs, hp] at u7 l7
          rw [u7, l7, removeFirst_append_of_not_mem _ _ _ hsl]
          rw [show removeFirst [(c.cmdId, CbKind.slash, "INTERACTION_CREATE")]
              (c.cmdId, CbKind.slash, "INTERACTION_CREATE") = [] from by simp [removeFirst]]
          exact List.append_nil _
      · by_cases hp : c.allow_prefix_cmd
        · simp [hs, hp] at u7 l7
          rw [u7, l7, removeFirst_append_of_not_mem _ _ _ hnl]
          rw [show removeFirst [(c.cmdId, CbKind.normal, "MESSAGE_CREATE")]
              (c.cmdId, CbKind.normal, "MESSAGE_CREATE") = [] from by simp [removeFirst]]
          exact List.append_nil _
        · simp [hs, hp] at u7 l7
          rw [u7, l7]
    simp only [listenersFor, u1, l1, efin]
    exact hb
  · by_cases hs : c.allow_slash_cmd
    · have hreq : s2.requests = s1.requests
          ++ (c1.list_of_application_command_data.getD []).map (fun gh =>
            HttpRequest.deleteGuildAppCommand env.application_id gh.1 gh.2) := by
        rw [u6, l4]
        simp [hs]
      intro gh hgh
      rw [hreq]
      exact List.mem_append_right _ (List.mem_map_of_mem _ hgh)
    · intro gh hgh
      rw [l6] at hgh
      simp [hs, hfresh] at hgh

/-- Witness for C3: the slash-and-prefix command `greet` loaded and then
unloaded in a fresh world. -/
theorem load_unload_clears_witness :
    listenersFor emptyState greetCmd.cmdId = [] ∧
    greetCmd.list_of_application_command_data = none ∧
    greetCmd.load sampleEnv emptyState = Except.ok
      ({ greetCmd with
          list_of_application_command_data := some [("g1", 900)]
          loaded := true },
       { emptyState with
          listeners := [(2, CbKind.slash, "INTERACTION_CREATE"),
                        (2, CbKind.normal, "MESSAGE_CREATE")]
          requests := [HttpRequest.createGuildAppCommand "app1" "g1" "greet"
            "another sample command"] }) ∧
    Command.unload
      { greetCmd with
          list_of_application_command_data := some [("g1", 900)]
          loaded := true } sampleEnv
      { emptyState with
          listeners := [(2, CbKind.slash, "INTERACTION_CREATE"),
                        (2, CbKind.normal, "MESSAGE_CREATE")]
          requests := [HttpRequest.createGuildAppCommand "app1" "g1" "greet"
            "another sample command"] }
      = Except.ok
        ({ greetCmd with
            list_of_application_command_data := some [("g1", 900)]
            loaded := false },
         { emptyState with
            requests := [HttpRequest.createGuildAppCommand "app1" "g1" "greet"
              "another sample command",
              HttpRequest.deleteGuildAppCommand "app1" "g1" 900] }) ∧
    (listenersFor
        { emptyState with
            requests := [HttpRequest.createGuildAppCommand "app1" "g1" "greet"
              "another sample command",
              HttpRequest.deleteGuildAppCommand "app1" "g1" 900] }
        (Command.cmdId { greetCmd with
            list_of_application_command_data := some [("g1", 900)]
            loaded := false }) = [] ∧
     Command.loaded { greetCmd with
          list_of_application_command_data := some [("g1", 900)]
          loaded := false } = false ∧
     ∀ gh ∈ (Command.list_of_application_command_data { greetCmd with
          list_of_application_command_data := some [("g1", 900)]
          loaded := true }).getD [],
       HttpRequest.deleteGuildAppCommand sampleEnv.application_id gh.1 gh.2 ∈
         SysState.requests { emptyState with
            requests := [HttpRequest.createGuildAppCommand "app1" "g1" "greet"
              "another sample command",
              HttpRequest.deleteGuildAppCommand "app1" "g1" 900] }) :=
  ⟨rfl, rfl, rfl, rfl,
   load_unload_clears sampleEnv greetCmd _ _ emptyState _ _ rfl rfl rfl rfl⟩

/-- C4: loading a prefix-only command registers exactly one event-bus
subscription — the message-create one — and issues no remote slash
registration. -/
theorem load_prefix_only_frame (env : GoldyEnv) (c c1 : Command) (s s1 : SysState)
    (hp : c.allow_prefix_cmd = true) (hs : c.allow_slash_cmd = false)
    (hbase : listenersFor s c.cmdId = [])
    (hL : c.load env s = Except.ok (c1, s1)) :
    listenersFor s1 c1.cmdId = [(c.cmdId, CbKind.normal, "MESSAGE_CREATE")] ∧
    s1.requests = s.requests := by
  obtain ⟨l1, l2, l3, l4, l5, l6, l7, l8, l9⟩ := load_ok_inv env c c1 s s1 hL
  have hb : List.filter (fun l => l.1 == c.cmdId) s.listeners = [] := hbase
  have efin : s1.listeners = s.listeners ++ [(c.cmdId, CbKind.normal, "MESSAGE_CREATE")] := by
    rw [l7]
    simp [hs, hp]
  constructor
  · simp only [listenersFor, l1, efin, List.filter_append, hb, List.nil_append]
    simp
  · rw [l8]
    simp [hs]

/-- Witness for C4: the prefix-only command `ping` loaded in a fresh
world. -/
theorem load_prefix_only_frame_witness :
    pingCmd.allow_prefix_cmd = true ∧ pingCmd.allow_slash_cmd = false ∧
    listenersFor emptyState pingCmd.cmdId = [] ∧
    pingCmd.load sampleEnv emptyState = Except.ok
      ({ pingCmd with loaded := true },
       { emptyState with listeners := [(1, CbKind.normal, "MESSAGE_CREATE")] }) ∧
    (listenersFor
        { emptyState with listeners := [(1, CbKind.normal, "MESSAGE_CREATE")] }
        (Command.cmdId { pingCmd with loaded := true })
        = [(pingCmd.cmdId, CbKind.normal, "MESSAGE_CREATE")] ∧
     SysState.requests
        { emptyState with listeners := [(1, CbKind.normal, "MESSAGE_CREATE")] }
        = emptyState.requests) :=
  ⟨rfl, rfl, rfl, rfl,
   load_prefix_only_frame sampleEnv pingCmd _ emptyState _ rfl rfl rfl rfl⟩

/-- Counterexample for C5: with two registered commands both named
`ping` (the registry performs no uniqueness check), deleting the first
still leaves the name resolvable — the claimed "lookup returns no match"
fails.  The run constructs both commands, deletes the first, and looks
the name up: the second command is found. -/
theorem delete_lookup_counterexample :
    (Command.init 1 ["ctx"] 1 "ping" "" none none none false false none
        emptyState).bind (fun p =>
      (Command.init 2 ["ctx"] 1 "ping" "" none none none false false none
          p.2).bind (fun q =>
        (p.1.delete sampleEnv q.2).map (fun r =>
          cache_lookup "ping" r.2.commands_cache)))
      = Except.ok (some ("ping", 2)) := by rfl

/-- C5 amended: after `delete()` completes, a lookup of the command's
name returns no match provided the deleted command's pair was the only
registry entry carrying that name (the documented uniqueness invariant);
with duplicate names the remaining duplicate is still found. -/
theorem delete_removes_unique_name (env : GoldyEnv) (c c1 : Command)
    (s s1 : SysState)
    (huniq : s.commands_cache.filter (fun p => p.1 == c.name) = [(c.name, c.cmdId)])
    (hD : c.delete env s = Except.ok (c1, s1)) :
    cache_lookup c.name s1.commands_cache = none := by
  unfold Command.delete at hD
  cases hu : c.unload env s with
  | error e =>
    simp [hu] at hD
  | ok p =>
    obtain ⟨cu, su⟩ := p
    simp only [hu] at hD
    obtain ⟨v1, v2, v3, v4, v5, v6, v7⟩ := unload_ok_inv env c cu s su hu
    cases hr : pyListRemove su.commands_cache (cu.name, cu.cmdId) with
    | error e =>
      simp [hr] at hD
    | ok cc =>
      simp only [hr, Except.ok.injEq, Prod.mk.injEq] at hD
      obtain ⟨hc1, hs1⟩ := hD
      subst hc1
      subst hs1
      have hf : su.commands_cache.filter (fun p => p.1 == cu.name)
          = [(cu.name, cu.cmdId)] := by
        rw [v5]
        simp only [v1, v2]
        exact huniq
      have hkey : cc.filter (fun p => p.1 == cu.name) = [] :=
        pyListRemove_filter_key (cu.name, cu.cmdId) hf hr
      simp only [v2] at hkey
      exact cache_lookup_eq_none_of_filter_nil c.name cc hkey

/-- Witness for the amended C5: a registry holding only `ping`, whose
deletion leaves the name unresolvable. -/
theorem delete_removes_unique_name_witness :
    List.filter (fun p => p.1 == pingCmd.name) [("ping", 1)]
      = [(pingCmd.name, pingCmd.cmdId)] ∧
    pingCmd.delete sampleEnv { emptyState with commands_cache := [("ping", 1)] }
      = Except.ok ({ pingCmd with loaded := false }, emptyState) ∧
    cache_lookup pingCmd.name emptyState.commands_cache = none :=
  ⟨rfl, rfl, delete_removes_unique_name sampleEnv pingCmd
    { pingCmd with loaded := false }
    { emptyState with commands_cache := [("ping", 1)] } emptyState rfl rfl⟩

/-- Counterexample for C6: deleting a command whose (name, identity)
pair is no longer in the registry (here: deleting it a second time) does
not no-op silently — Python `list.remove` raises `ValueError`. -/
theorem delete_absent_counterexample :
    (Command.init 1 ["ctx"] 1 "ping" "" none none none false false none
        emptyState).bind (fun p =>
      (p.1.delete sampleEnv p.2).bind (fun q => q.1.delete sampleEnv q.2))
      = Except.error PyErr.valueError := by rfl

/-- C6 amended: `delete()` calls `unload()` and then removes the
(name, self) pair from the registry; when that exact pair is absent the
removal raises `ValueError` (which `delete` propagates) instead of
silently no-opping. -/
theorem delete_absent_pair_raises (env : GoldyEnv) (c c1 : Command)
    (s s1 : SysState)
    (hU : c.unload env s = Except.ok (c1, s1))
    (habs : (c1.name, c1.cmdId) ∉ s1.commands_cache) :
    c.delete env s = Except.error PyErr.valueError := by
  simp [Command.delete, hU, pyListRemove_of_not_mem _ _ habs]

/-- Witness for the amended C6: deleting `ping` against an empty
registry raises `ValueError`. -/
theorem delete_absent_pair_raises_witness :
    pingCmd.unload sampleEnv emptyState
      = Except.ok ({ pingCmd with loaded := false }, emptyState) ∧
    (Command.name { pingCmd with loaded := false },
      Command.cmdId { pingCmd with loaded := false })
      ∉ emptyState.commands_cache ∧
    pingCmd.delete sampleEnv emptyState = Except.error PyErr.valueError :=
  ⟨rfl, by simp [emptyState],
   delete_absent_pair_raises sampleEnv pingCmd { pingCmd with loaded := false }
     emptyState emptyState rfl (by simp [emptyState])⟩

/-- C7: construction yields an unloaded command whose name defaults to
the callback's declared identifier, detects extension membership by the
leading self parameter (dropping it from the tracked list and from the
parameter count), and appends exactly one (name, identity) pair to the
registry — no uniqueness check, no listener or remote side effect.
`h1`/`h2` say the callback declares at least one parameter (the context
object) and that `co_argcount` counts a prefix of `co_varnames`, as
CPython code objects guarantee. -/
theorem command_init_contract
    (cmdId : Nat) (co_varnames : List String) (co_argcount : Nat)
    (func_name ext_class_name : String)
    (nameArg descriptionArg : Option String)
    (required_roles : Option (List String))
    (ap asl : Bool) (parent : Option Nat) (s : SysState)
    (c : Command) (s1 : SysState)
    (h1 : 1 ≤ co_argcount) (h2 : co_argcount ≤ co_varnames.length)
    (hI : Command.init cmdId co_varnames co_argcount func_name ext_class_name
      nameArg descriptionArg required_roles ap asl parent s = Except.ok (c, s1)) :
    c.loaded = false ∧
    c.name = nameArg.getD func_name ∧
    (c.in_extension = true ↔ (co_varnames.take co_argcount).head? = some "self") ∧
    (c.in_extension = true → c.params = co_varnames.tail ∧
      c.params_amount = (co_argcount : Int) - 1) ∧
    (c.in_extension = false → c.params = co_varnames ∧
      c.params_amount = (co_argcount : Int)) ∧
    s1.commands_cache = s.commands_cache ++ [(c.name, cmdId)] ∧
    s1.listeners = s.listeners ∧ s1.requests = s.requests := by
  cases co_varnames with
  | nil =>
    simp at h2
    omega
  | cons p0 rest =>
    obtain ⟨k, rfl⟩ : ∃ k, co_argcount = k + 1 := ⟨co_argcount - 1, by omega⟩
    by_cases hp : p0 = "self"
    · simp only [Command.init, hp, ite_true, if_pos, Except.ok.injEq,
        Prod.mk.injEq] at hI
      obtain ⟨hc, hs1⟩ := hI
      subst hc
      subst hs1
      refine ⟨rfl, rfl, ?_, ?_, ?_, rfl, rfl, rfl⟩ <;>
        simp [hp, List.take_succ_cons]
    · simp only [Command.init, hp, ite_false, if_neg, Except.ok.injEq,
        Prod.mk.injEq] at hI
      obtain ⟨hc, hs1⟩ := hI
      subst hc
      subst hs1
      refine ⟨rfl, rfl, ?_, ?_, ?_, rfl, rfl, rfl⟩ <;>
        simp [hp, List.take_succ_cons]

/-- Witness for C7: an extension-owned callback `hello(self, platter)`
with one local variable `x`. -/
theorem command_init_contract_witness :
    1 ≤ 2 ∧ 2 ≤ (["self", "platter", "x"] : List String).length ∧
    Command.init 7 ["self", "platter", "x"] 2 "hello" "MyExt" none none none
        true true none emptyState
      = Except.ok
        ({ cmdId := 7
           name := "hello"
           description := "This command has no description. Sorry about that."
           required_roles := none
           allow_prefix_cmd := true
           allow_slash_cmd := true
           parent_cmd := none
           params := ["platter", "x"]
           params_amount := 1
           extension_name := "MyExt"
           in_extension := true
           list_of_application_command_data := none
           loaded := false },
         { emptyState with commands_cache := [("hello", 7)] }) ∧
    (Command.loaded
        { cmdId := 7, name := "hello",
          description := "This command has no description. Sorry about that.",
          required_roles := none, allow_prefix_cmd := true,
          allow_slash_cmd := true, parent_cmd := none,
          params := ["platter", "x"], params_amount := 1,
          extension_name := "MyExt", in_extension := true,
          list_of_application_command_data := none, loaded := false } = false) :=
  ⟨by decide, by decide, rfl,
   (command_init_contract 7 ["self", "platter", "x"] 2 "hello" "MyExt" none none
     none true true none emptyState _ _ (by decide) (by decide) rfl).1⟩

/-- Counterexample for C8: when the config still contains the template
entry `{guild_id_here}`, the accessor does not return all pairs taken
from the config — the template pair is removed. -/
theorem allowed_guilds_template_counterexample :
    GoldyConfig.allowed_guilds
        (some [("\x7bguild_id_here\x7d", "template"), ("123", "dev")])
      ≠ Except.ok [("\x7bguild_id_here\x7d", "template"), ("123", "dev")] := by
  simp [GoldyConfig.allowed_guilds]

/-- C8 amended: the accessor raises the fatal configuration error iff
the allowed-guild key is absent; otherwise it returns, in order, the
config's (guildId, guildLabel) pairs with the `{guild_id_here}` template
entry removed when present. -/
theorem allowed_guilds_spec (data : Option (List (String × String))) :
    (GoldyConfig.allowed_guilds data
        = Except.error GoldyBotError.allowedGuildsNotSpecified ↔ data = none) ∧
    (∀ l r, data = some l → GoldyConfig.allowed_guilds data = Except.ok r →
      r.Sublist l ∧
      ∀ kv, kv ∈ r ↔ kv ∈ l ∧ kv.1 ≠ "\x7bguild_id_here\x7d") := by
  cases data with
  | none =>
    constructor
    · simp [GoldyConfig.allowed_guilds]
    · intro l r hl
      exact absurd hl (by simp)
  | some d =>
    constructor
    · simp [GoldyConfig.allowed_guilds]
    · intro l r hl hr
      injection hl with hl
      subst hl
      simp only [GoldyConfig.allowed_guilds, Except.ok.injEq] at hr
      subst hr
      refine ⟨List.filter_sublist _, ?_⟩
      intro kv
      simp [List.mem_filter]

/-- Witness for the amended C8: a config carrying the template entry and
one real guild. -/
theorem allowed_guilds_spec_witness :
    List.Sublist [(("123" : String), ("dev" : String))]
      [("\x7bguild_id_here\x7d", "template"), ("123", "dev")] ∧
    ∀ kv, kv ∈ [(("123" : String), ("dev" : String))] ↔
      kv ∈ [(("\x7bguild_id_here\x7d" : String), ("template" : String)),
            ("123", "dev")] ∧
      kv.1 ≠ "\x7bguild_id_here\x7d" :=
  (allowed_guilds_spec
      (some [("\x7bguild_id_here\x7d", "template"), ("123", "dev")])).2
    [("\x7bguild_id_here\x7d", "template"), ("123", "dev")] [("123", "dev")]
    rfl rfl
